import Mathlib

/-!
Verification of the ingestion-and-freshness pipeline of src/main.py
(deal/RSS scraper).  The Python source is shallowly embedded: pure
functions become Lean functions, the SQLite table seen_items becomes a
list of records with the same columns, timestamps become natural-number
seconds, and the per-source network results are passed in explicitly
(the run settles every source to a value or an exception, which the
embedding receives as an Except value per source).
-/

set_option maxRecDepth 100000

namespace Scraper

/-! ### MD5 (hashlib.md5, used by Item.calculate_hash)

A direct executable implementation of RFC 1321 over byte lists, with the
hex digest rendered exactly as hashlib hexdigest renders it. -/

/-- Per-round left-rotation amounts of MD5. -/
def md5S : List Nat :=
  [7,12,17,22,7,12,17,22,7,12,17,22,7,12,17,22,
   5,9,14,20,5,9,14,20,5,9,14,20,5,9,14,20,
   4,11,16,23,4,11,16,23,4,11,16,23,4,11,16,23,
   6,10,15,21,6,10,15,21,6,10,15,21,6,10,15,21]

/-- Per-round additive constants of MD5. -/
def md5K : List Nat :=
  [0xd76aa478, 0xe8c7b756, 0x242070db, 0xc1bdceee,
   0xf57c0faf, 0x4787c62a, 0xa8304613, 0xfd469501,
   0x698098d8, 0x8b44f7af, 0xffff5bb1, 0x895cd7be,
   0x6b901122, 0xfd987193, 0xa679438e, 0x49b40821,
   0xf61e2562, 0xc040b340, 0x265e5a51, 0xe9b6c7aa,
   0xd62f105d, 0x02441453, 0xd8a1e681, 0xe7d3fbc8,
   0x21e1cde6, 0xc33707d6, 0xf4d50d87, 0x455a14ed,
   0xa9e3e905, 0xfcefa3f8, 0x676f02d9, 0x8d2a4c8a,
   0xfffa3942, 0x8771f681, 0x6d9d6122, 0xfde5380c,
   0xa4beea44, 0x4bdecfa9, 0xf6bb4b60, 0xbebfbc70,
   0x289b7ec6, 0xeaa127fa, 0xd4ef3085, 0x04881d05,
   0xd9d4d039, 0xe6db99e5, 0x1fa27cf8, 0xc4ac5665,
   0xf4292244, 0x432aff97, 0xab9423a7, 0xfc93a039,
   0x655b59c3, 0x8f0ccc92, 0xffeff47d, 0x85845dd1,
   0x6fa87e4f, 0xfe2ce6e0, 0xa3014314, 0x4e0811a1,
   0xf7537e82, 0xbd3af235, 0x2ad7d2bb, 0xeb86d391]

/-- Mask for arithmetic modulo 2^32. -/
def mask32 : Nat := 4294967295

/-- Left rotation of a 32-bit word. -/
def rotl32 (x c : Nat) : Nat := ((x <<< c) ||| (x >>> (32 - c))) &&& mask32

/-- Little-endian decoding of a byte list into 32-bit words. -/
def toWords : List Nat → List Nat
  | b0 :: b1 :: b2 :: b3 :: rest =>
      (b0 + 256 * b1 + 65536 * b2 + 16777216 * b3) :: toWords rest
  | _ => []

/-- One MD5 round: transforms the running state (a, b, c, d) at index i. -/
def md5Step (M : List Nat) (st : Nat × Nat × Nat × Nat) (i : Nat) :
    Nat × Nat × Nat × Nat :=
  let a := st.1
  let b := st.2.1
  let c := st.2.2.1
  let d := st.2.2.2
  let f :=
    if i < 16 then (b &&& c) ||| ((mask32 ^^^ b) &&& d)
    else if i < 32 then (d &&& b) ||| ((mask32 ^^^ d) &&& c)
    else if i < 48 then b ^^^ c ^^^ d
    else c ^^^ (b ||| (mask32 ^^^ d))
  let g :=
    if i < 16 then i
    else if i < 32 then (5 * i + 1) % 16
    else if i < 48 then (3 * i + 5) % 16
    else (7 * i) % 16
  let tmp := (a + f + md5K.getD i 0 + M.getD g 0) &&& mask32
  (d, (b + rotl32 tmp (md5S.getD i 0)) &&& mask32, b, c)

/-- Processing of one 64-byte chunk. -/
def md5Block (st : Nat × Nat × Nat × Nat) (chunk : List Nat) :
    Nat × Nat × Nat × Nat :=
  let M := toWords chunk
  let r := (List.range 64).foldl (md5Step M) st
  ((st.1 + r.1) &&& mask32, (st.2.1 + r.2.1) &&& mask32,
   (st.2.2.1 + r.2.2.1) &&& mask32, (st.2.2.2 + r.2.2.2) &&& mask32)

/-- Processing of a given number of 64-byte chunks. -/
def md5BlocksGo : Nat → (Nat × Nat × Nat × Nat) → List Nat →
    Nat × Nat × Nat × Nat
  | 0, st, _ => st
  | n + 1, st, l => md5BlocksGo n (md5Block st (l.take 64)) (l.drop 64)

/-- Processing of a padded message, 64 bytes at a time.  The padded
length is always a multiple of 64, so dividing by 64 counts the chunks
exactly. -/
def md5Blocks (st : Nat × Nat × Nat × Nat) (l : List Nat) :
    Nat × Nat × Nat × Nat :=
  md5BlocksGo (l.length / 64) st l

/-- Little-endian encoding of the 64-bit message bit length. -/
def lenLE8 (n : Nat) : List Nat :=
  [n &&& 255, (n >>> 8) &&& 255, (n >>> 16) &&& 255, (n >>> 24) &&& 255,
   (n >>> 32) &&& 255, (n >>> 40) &&& 255, (n >>> 48) &&& 255,
   (n >>> 56) &&& 255]

/-- MD5 padding: a 0x80 byte, zeros to 56 mod 64, then the bit length. -/
def padBytes (msg : List Nat) : List Nat :=
  let len := msg.length
  let padLen := (120 - (len + 1) % 64) % 64
  msg ++ [128] ++ List.replicate padLen 0 ++ lenLE8 (8 * len)

/-- Lowercase hexadecimal digit character of a value below 16 (48 is
the code of the zero digit, 97 the code of the letter a). -/
def hexDigit (n : Nat) : Char :=
  if n < 10 then Char.ofNat (48 + n) else Char.ofNat (87 + n)

/-- Two lowercase hex characters of one byte. -/
def byteHex (b : Nat) : List Char :=
  [hexDigit (b / 16), hexDigit (b % 16)]

/-- Little-endian byte decomposition of a 32-bit word. -/
def wordLEBytes (w : Nat) : List Nat :=
  [w &&& 255, (w >>> 8) &&& 255, (w >>> 16) &&& 255, (w >>> 24) &&& 255]

/-- MD5 hex digest of a byte list, as hashlib md5 hexdigest returns it. -/
def md5Hex (msg : List Nat) : String :=
  let st := md5Blocks (0x67452301, 0xefcdab89, 0x98badcfe, 0x10325476)
      (padBytes msg)
  let bytes := wordLEBytes st.1 ++ wordLEBytes st.2.1 ++
      wordLEBytes st.2.2.1 ++ wordLEBytes st.2.2.2
  String.mk (bytes.foldr (fun b acc => byteHex b ++ acc) [])

/-- UTF-8 encoding of one code point. -/
def utf8Bytes (c : Nat) : List Nat :=
  if c < 128 then [c]
  else if c < 2048 then [192 + c / 64, 128 + c % 64]
  else if c < 65536 then
    [224 + c / 4096, 128 + (c / 64) % 64, 128 + c % 64]
  else
    [240 + c / 262144, 128 + (c / 4096) % 64, 128 + (c / 64) % 64,
     128 + c % 64]

/-- UTF-8 bytes of a string (str.encode in Python). -/
def strBytes (s : String) : List Nat :=
  s.toList.foldr (fun c acc => utf8Bytes c.toNat ++ acc) []

example : md5Hex (strBytes "") = "d41d8cd98f00b204e9800998ecf8427e" := by
  decide

example : md5Hex (strBytes "abc") = "900150983cd24fb0d6963f7d28e17f72" := by
  decide

/-! ### Data model

Items are dictionaries in the source; each scraper constructs them with
the fields below.  The per-feed-type configuration block
CONF feed_types is a mapping from the feed type name to its settings;
absent keys fall back to the defaults written in the code
(similarity_threshold 95, max_age_hours 24, max_age_days 30). -/

/-- One block of the feed_types section of config/sources.yaml. -/
structure TypeConfig where
  similarity_threshold : Option Nat := none
  max_age_hours : Option Nat := none
  max_age_days : Option Nat := none
deriving DecidableEq

/-- The loaded configuration, restricted to what the freshness store
consults: the feed_types mapping (total, with the empty block for
missing feed types, matching dict.get with default). -/
structure Config where
  feed_types : String → TypeConfig

/-- A raw item, as the scrapers construct it (class Item in main.py).
The fetched timestamp is in seconds. -/
structure Item where
  title : String
  body : String
  url : String
  source : String
  type : String
  tags : List String
  fetched : Nat
deriving DecidableEq

/-- Item.calculate_hash: the md5 hex digest of title concatenated with
url, computed at construction and stored under the hash key. -/
def Item.calculate_hash (i : Item) : String :=
  md5Hex (strBytes (i.title ++ i.url))

/-- One row of the seen_items table.  Timestamps are seconds (the code
round-trips them through isoformat strings, which preserves order and
value). -/
structure SeenRecord where
  hash : String
  type : String
  title : String
  posted_at : Nat
  expires_at : Nat
deriving DecidableEq

/-- The seen_items table.  The hash column is the primary key; INSERT
OR REPLACE keeps at most one row per hash. -/
abbrev Store := List SeenRecord

/-- SELECT ... FROM seen_items WHERE hash = h (at most one row, by the
primary key). -/
def lookupHash (db : Store) (h : String) : Option SeenRecord :=
  db.find? (fun r => r.hash == h)

/-- INSERT OR REPLACE: SQLite deletes the row with the conflicting
primary key and inserts the new row. -/
def insertOrReplace (db : Store) (r : SeenRecord) : Store :=
  db.filter (fun x => x.hash != r.hash) ++ [r]

/-! ### is_item_seen and store_item

is_item_seen takes the similarity function (rapidfuzz token_set_ratio
in the source) as an explicit parameter: it is an external library
call, and the theorems below quantify over it.  The definition mirrors
the control flow of the source line by line, including the final
branch in which both arms return true. -/

/-- is_item_seen from main.py.  The sim parameter stands for
token_set_ratio. -/
def is_item_seen (conf : Config) (sim : String → String → Nat)
    (db : Store) (now : Nat) (item : Item) : Bool :=
  let feed_type := item.type
  let type_config := conf.feed_types feed_type
  match lookupHash db item.calculate_hash with
  | none => false
  | some row =>
    if now > row.expires_at then false
    else if feed_type == "rss" then
      let similar_items :=
        (db.filter (fun r => r.type == "rss" && r.hash != item.calculate_hash)).map
          (fun r => r.title)
      let threshold := type_config.similarity_threshold.getD 95
      if similar_items.any (fun t => sim item.title t > threshold) then true
      else true
    else true

/-- store_item from main.py: upsert of the item with posted_at = now
and expires_at = now plus the retention window of its feed type
(max_age_hours for rss, max_age_days otherwise; a day is 86400 and an
hour 3600 seconds). -/
def store_item (conf : Config) (db : Store) (now : Nat) (item : Item) :
    Store :=
  let feed_type := item.type
  let type_config := conf.feed_types feed_type
  let expires_at :=
    if feed_type == "rss" then now + 3600 * type_config.max_age_hours.getD 24
    else now + 86400 * type_config.max_age_days.getD 30
  insertOrReplace db
    { hash := item.calculate_hash, type := feed_type, title := item.title,
      posted_at := now, expires_at := expires_at }

/-! ### Extractors (scrape_rss, scrape_html, scrape_reddit)

The parsing libraries (feedparser, BeautifulSoup, the Reddit JSON) are
external; the embedding receives their output as already-parsed
structures and models the item construction loops exactly. -/

/-- Python-style or on strings: the left operand when it is truthy
(nonempty), the right one otherwise. -/
def pyOrStr (a b : String) : String := if a == "" then b else a

/-- One entry of a parsed feed (feedparser).  The content field is the
optional content list (None when the key is absent); only the value of
its first element is read. -/
structure FeedEntry where
  title : String
  summary : String
  content : Option (List String)
  link : String
deriving DecidableEq

/-- A parsed feed: the bozo error flag and the entry list. -/
structure Feed where
  bozo : Bool
  entries : List FeedEntry
deriving DecidableEq

/-- The item built from one feed entry, when the entry is kept. -/
def rssEntryItem (name : String) (tags : List String) (now : Nat)
    (e : FeedEntry) : Option Item :=
  let title := e.title.take 120
  let body0 := e.summary
  let body1 :=
    if body0 == "" then
      match e.content with
      | some l => match l with | [] => "" | v :: _ => v
      | none => body0
    else body0
  let body := body1.take 200
  let link := e.link
  if title == "" || link == "" then none
  else some { title := title, body := body, url := link, source := name,
              type := "rss", tags := tags, fetched := now }

/-- scrape_rss from main.py: nothing on a bozo feed, else the items of
the first 20 entries, skipping entries with an empty title or link. -/
def scrape_rss (name : String) (tags : List String) (now : Nat)
    (feed : Feed) : List Item :=
  if feed.bozo then []
  else (feed.entries.take 20).filterMap (rssEntryItem name tags now)

/-- A source block of the html section of the configuration. -/
structure SourceEntry where
  name : String
  url : String
  tags : List String
deriving DecidableEq

/-- One element matched by the selector on a scraped page: the alt
attribute (none when absent), the element text, the stripped strings,
and the href of the first nested anchor carrying one. -/
structure HtmlBlock where
  alt : Option String
  text : String
  strippedStrings : List String
  href : Option String
deriving DecidableEq

/-- scrape_html from main.py: one item per matched block, with no cap
on the number of blocks. -/
def scrape_html (entry : SourceEntry) (now : Nat)
    (blocks : List HtmlBlock) : List Item :=
  blocks.map (fun b =>
    let title := (pyOrStr (pyOrStr (b.alt.getD "") b.text) entry.name).take 120
    let body := (String.intercalate " " b.strippedStrings).take 200
    let link :=
      match b.href with
      | some h => if h == "" then entry.url else h
      | none => entry.url
    { title := title, body := body, url := link, source := entry.name,
      type := "deals", tags := entry.tags, fetched := now })

/-- One post of the Reddit listing JSON. -/
structure RedditPost where
  title : String
  score : Int
  num_comments : Nat
  permalink : String
deriving DecidableEq

/-- scrape_reddit from main.py: one item per returned post, with no
local cap (the request URL asks the API for 20). -/
def scrape_reddit (sub : String) (now : Nat) (posts : List RedditPost) :
    List Item :=
  posts.map (fun d =>
    { title := d.title
      body := "score " ++ toString d.score ++ " · " ++
        toString d.num_comments ++ " comments"
      url := "https://reddit.com" ++ d.permalink
      source := "r/" ++ sub
      type := "deals", tags := [], fetched := now })

/-! ### Retry wrapper (tenacity) around fetch_html and fetch_json

The decorator is retry(stop = stop_after_attempt 3,
wait = wait_exponential (min 2, max 30)).  Tenacity retries every
exception by default; the decorated body raises for any HTTP status of
400 or above (raise_for_status) and the transport itself can raise
timeout or connection errors.  The network is passed in as a function
from the attempt number to the outcome of that attempt; the wrapper
returns
the final outcome, the number of attempts made, and the backoff sleeps
performed (tenacity wraps the final failure in its RetryError carrying
the last underlying error, which the embedding returns directly). -/

/-- Errors one fetch attempt can raise. -/
inductive FetchErr where
  | timeoutErr : FetchErr
  | connectionErr : FetchErr
  | httpStatus : Nat → FetchErr
deriving DecidableEq

/-- An HTTP response as the body of fetch_html sees it. -/
structure HttpResponse where
  status : Nat
  content : String
deriving DecidableEq

/-- raise_for_status: an error for any status of 400 or above. -/
def raise_for_status (r : HttpResponse) : Except FetchErr String :=
  if 400 ≤ r.status then Except.error (FetchErr.httpStatus r.status)
  else Except.ok r.content

/-- One undecorated execution of the fetch body at a given attempt
number: perform the request, then raise_for_status. -/
def fetch_once (responses : Nat → Except FetchErr HttpResponse)
    (attempt : Nat) : Except FetchErr String :=
  match responses attempt with
  | Except.error e => Except.error e
  | Except.ok r => raise_for_status r

/-- wait_exponential of tenacity with multiplier 1 and base 2: the
sleep after the failed attempt with the given number, clamped between
the configured minimum and maximum. -/
def wait_exponential (minW maxW attempt_number : Nat) : Nat :=
  Nat.max minW (Nat.min (2 ^ attempt_number) maxW)

/-- The tenacity loop: run the body; on success stop, on failure stop
when no retries remain, otherwise sleep and retry with the next attempt
number.  Returns (outcome, attempts made, sleeps performed). -/
def retryLoop (f : Nat → Except FetchErr String) :
    Nat → Nat → Except FetchErr String × Nat × List Nat
  | attempt, 0 => (f attempt, attempt, [])
  | attempt, fuel + 1 =>
    match f attempt with
    | Except.ok v => (Except.ok v, attempt, [])
    | Except.error _ =>
      let w := wait_exponential 2 30 attempt
      let r := retryLoop f (attempt + 1) fuel
      (r.1, r.2.1, w :: r.2.2)

/-- fetch_html (and identically fetch_json) under its decorator:
stop_after_attempt 3 means at most two retries after the first
attempt. -/
def fetch_html (responses : Nat → Except FetchErr HttpResponse) :
    Except FetchErr String × Nat × List Nat :=
  retryLoop (fetch_once responses) 1 2

/-! ### The run (main in main.py)

The run gathers every configured source to a terminal outcome (the RSS
loop catches per-feed exceptions; the two asyncio.gather calls use
return_exceptions = True, so each task settles to a value or an
exception).  The embedding receives one outcome per source: its name
and either its item list or the error text.  Filtering consults the
database as it stands at the start of the run; the admitted items are
stored only after the whole filtering pass; the metrics record is
written in the finally block, so it is produced on every run, and the
dry-run flag only switches delivery from webhook posting to
printing. -/

/-- A settled source: its display name and its items or its error. -/
structure SourceOutcome where
  name : String
  result : Except String (List Item)

/-- Error line of a failed RSS feed. -/
def fmt_rss_error (name err : String) : String :=
  "Error processing RSS feed " ++ name ++ ": " ++ err

/-- Error line of a failed HTML source. -/
def fmt_html_error (name err : String) : String :=
  "Error scraping " ++ name ++ ": " ++ err

/-- Error line of a failed subreddit. -/
def fmt_reddit_error (sub err : String) : String :=
  "Error scraping r/" ++ sub ++ ": " ++ err

/-- The accumulation loop over the outcomes of one section of main: a
failed source appends its error line, a successful one appends its
items that are not already seen.  The database is not modified here, so
every lookup sees the state from the start of the run. -/
def collect_new (conf : Config) (sim : String → String → Nat) (db : Store)
    (now : Nat) (fmt : String → String → String) :
    List SourceOutcome → List Item × List String
  | [] => ([], [])
  | o :: rest =>
    let acc := collect_new conf sim db now fmt rest
    match o.result with
    | Except.error e => (acc.1, fmt o.name e :: acc.2)
    | Except.ok items =>
      (items.filter (fun i => !(is_item_seen conf sim db now i)) ++ acc.1,
       acc.2)

/-- The metrics record main writes to metrics.json in its finally
block. -/
structure Metrics where
  timestamp : Nat
  rss_updates : List (String × String)
  new_deals : List (String × String)
  errors : List String
deriving DecidableEq

/-- What the run does with the admitted items: posting to the webhooks
in a normal run, printing in a dry run. -/
inductive Delivery where
  | posted : List Item → List Item → Delivery
  | printed : List String → List String → Delivery
deriving DecidableEq

/-- A dry-run output line for one item. -/
def dryRunLine (i : Item) : String :=
  "[" ++ i.source ++ "] " ++ i.title

/-- Everything one run produces. -/
structure RunOutput where
  metrics : Metrics
  finalStore : Store
  delivery : Delivery
deriving DecidableEq

/-- The run: main of main.py with the per-source outcomes supplied.
The RSS section, the HTML section and the Reddit section are collected
against the initial database; the new items are stored afterwards, in
order; metrics and the delivery are built from the same lists. -/
def runMain (conf : Config) (sim : String → String → Nat) (db : Store)
    (now : Nat) (dryRun : Bool) (rssOuts htmlOuts redditOuts :
    List SourceOutcome) : RunOutput :=
  let rssC := collect_new conf sim db now fmt_rss_error rssOuts
  let htmlC := collect_new conf sim db now fmt_html_error htmlOuts
  let redditC := collect_new conf sim db now fmt_reddit_error redditOuts
  let rss_items := rssC.1
  let deal_items := htmlC.1 ++ redditC.1
  let finalStore :=
    (rss_items ++ deal_items).foldl (fun d i => store_item conf d now i) db
  let metrics : Metrics :=
    { timestamp := now
      rss_updates := rss_items.map (fun i => (i.title, i.source))
      new_deals := deal_items.map (fun i => (i.title, i.source))
      errors := rssC.2 ++ htmlC.2 ++ redditC.2 }
  let delivery :=
    if dryRun then
      Delivery.printed (rss_items.map dryRunLine) (deal_items.map dryRunLine)
    else Delivery.posted rss_items deal_items
  { metrics := metrics, finalStore := finalStore, delivery := delivery }

/-! ### Relevance scoring

Modelled from the spec: no scoring code exists under src (main.py
filters by freshness only); the spec, section 9, records that the
repository holds other variants of the pipeline with a scoring and
floor step, and sections 4.3 and 8 fix its behavior.  The definitions
below follow those words: the first integer percentage token NN% of the
concatenated text, divided by 100 and defaulting to 0; the floor
resolved from the source setting, then the global setting, then 0.3;
the score as the maximum of the two; rejection when the score is below
the floor. -/

/-- Modelled from the spec: the scanner behind
explicit_percentage_in_text.  It walks the characters, building the
digit run in progress (the accumulator); a percent sign directly after
a digit run ends the scan with that number. -/
def scanPercent : List Char → Option Nat → Option Nat
  | [], _ => none
  | c :: rest, some n =>
    if c.isDigit then scanPercent rest (some (n * 10 + (c.toNat - 48)))
    else if c = '%' then some n
    else scanPercent rest none
  | c :: rest, none =>
    if c.isDigit then scanPercent rest (some (c.toNat - 48))
    else scanPercent rest none

/-- Modelled from the spec: explicit_percentage_in_text, the first
integer percentage token of the text divided by 100, or 0 when the text
has none. -/
def explicit_percentage_in_text (text : String) : Rat :=
  match scanPercent text.toList none with
  | some n => (n : Rat) / 100
  | none => 0

/-- Modelled from the spec: the relevance floor of a source, falling
back to the global setting and then to the unconfigured default 0.3. -/
def min_hot_floor (src glob : Option Rat) : Rat :=
  src.getD (glob.getD (3 / 10))

/-- Modelled from the spec: the relevance score of an item that passed
the freshness checks. -/
def admission_score (title body : String) (floor : Rat) : Rat :=
  max (explicit_percentage_in_text (title ++ body)) floor

/-- Modelled from the spec: step 6 of the admission algorithm, the
rejection decision of the floor check. -/
def floor_rejects (title body : String) (floor : Rat) : Bool :=
  admission_score title body floor < floor

/-! ### Concrete instances used by the counterexamples and witnesses -/

/-- The configuration with an empty feed_types section: every setting
falls back to the in-code defaults. -/
def defaultConf : Config := { feed_types := fun _ => {} }

/-- A similarity function reporting the maximal score 100 for every
pair of titles: the most favorable case for near-duplicate
suppression. -/
def simConst100 : String → String → Nat := fun _ _ => 100

/-- A deals item with the spec example title. -/
def itemWidgetA : Item :=
  { title := "50% off widget sale", body := "body one",
    url := "https://a.example/x", source := "s1", type := "deals",
    tags := [], fetched := 0 }

/-- The same title as itemWidgetA, a different url and body. -/
def itemWidgetB : Item :=
  { title := "50% off widget sale", body := "body two",
    url := "https://b.example/y", source := "s2", type := "deals",
    tags := [], fetched := 0 }

/-- The second spec example title (equal to the first after
case-folding and stripping non-word characters), same url as
itemWidgetA. -/
def itemWidgetC : Item :=
  { title := "50%% off Widget Sale!!", body := "body one",
    url := "https://a.example/x", source := "s1", type := "deals",
    tags := [], fetched := 0 }

/-- Same title and url as itemWidgetA, a different body and source. -/
def itemWidgetD : Item :=
  { title := "50% off widget sale", body := "a very different body",
    url := "https://a.example/x", source := "s9", type := "deals",
    tags := [], fetched := 7 }

/-- First of the near-duplicate RSS pair from the spec. -/
def bigToday : Item :=
  { title := "Big Sale on Widgets Today", body := "",
    url := "https://s1.example/a", source := "s1", type := "rss",
    tags := [], fetched := 0 }

/-- Second of the near-duplicate RSS pair from the spec. -/
def bigNow : Item :=
  { title := "Big Sale on Widgets Now", body := "",
    url := "https://s2.example/b", source := "s2", type := "rss",
    tags := [], fetched := 0 }

/-- An RSS item submitted twice in the single-run counterexample. -/
def dupDeal : Item :=
  { title := "Mega Deal", body := "", url := "https://d.example/p",
    source := "d1", type := "rss", tags := [], fetched := 0 }

/-- A network that answers every attempt with HTTP 404. -/
def resp404 : Nat → Except FetchErr HttpResponse :=
  fun _ => Except.ok { status := 404, content := "not found" }

/-- An HTML source entry for the cap counterexample. -/
def entry21 : SourceEntry :=
  { name := "shop", url := "https://shop.example/deals", tags := [] }

/-- A page on which the selector matches 21 blocks. -/
def blocks21 : List HtmlBlock :=
  (List.range 21).map (fun k =>
    { alt := none, text := "Deal number " ++ toString k,
      strippedStrings := [], href := none })

/-- An RSS item admitted during the dry-run witness. -/
def itemDry : Item :=
  { title := "Dry run special", body := "", url := "https://dry.example/1",
    source := "w1", type := "rss", tags := [], fetched := 0 }

/-! ### Helper lemmas -/

/-- The record store_item writes for an item at a given time. -/
def storedRecord (conf : Config) (now : Nat) (i : Item) : SeenRecord :=
  { hash := i.calculate_hash, type := i.type, title := i.title,
    posted_at := now,
    expires_at :=
      if i.type == "rss" then
        now + 3600 * ((conf.feed_types i.type).max_age_hours.getD 24)
      else now + 86400 * ((conf.feed_types i.type).max_age_days.getD 30) }

theorem store_item_eq (conf : Config) (db : Store) (now : Nat) (i : Item) :
    store_item conf db now i = insertOrReplace db (storedRecord conf now i) :=
  rfl

/-- Characterization of is_item_seen: the function returns true exactly
when the exact-hash row exists and has not expired.  The similarity
scan has no effect on the result: both of its continuations return
true. -/
theorem is_item_seen_spec (conf : Config) (sim : String → String → Nat)
    (db : Store) (now : Nat) (item : Item) :
    is_item_seen conf sim db now item =
      (match lookupHash db item.calculate_hash with
       | none => false
       | some row => !decide (row.expires_at < now)) := by
  cases h : lookupHash db item.calculate_hash with
  | none => simp [is_item_seen, h]
  | some row =>
    by_cases hexp : now > row.expires_at
    · simp [is_item_seen, h, hexp]
    · simp [is_item_seen, h, hexp]

/-- The result of is_item_seen does not depend on the similarity
function. -/
theorem is_item_seen_sim_free (conf : Config)
    (sim1 sim2 : String → String → Nat) (db : Store) (now : Nat)
    (item : Item) :
    is_item_seen conf sim1 db now item = is_item_seen conf sim2 db now item := by
  rw [is_item_seen_spec, is_item_seen_spec]

/-- Lookup of the freshly upserted key returns the new record. -/
theorem lookupHash_insertOrReplace_self (db : Store) (r : SeenRecord) :
    lookupHash (insertOrReplace db r) r.hash = some r := by
  unfold lookupHash insertOrReplace
  rw [List.find?_append]
  have h1 : List.find? (fun y => y.hash == r.hash)
      (db.filter fun x => x.hash != r.hash) = none := by
    rw [List.find?_eq_none]
    intro x hx
    have h2 := (List.mem_filter.mp hx).2
    simpa using h2
  rw [h1]
  simp [List.find?]

/-- Lookup of any other key is unchanged by the upsert. -/
theorem lookupHash_insertOrReplace_ne (db : Store) (r : SeenRecord)
    (h : String) (hne : h ≠ r.hash) :
    lookupHash (insertOrReplace db r) h = lookupHash db h := by
  unfold lookupHash insertOrReplace
  rw [List.find?_append, List.find?_filter]
  have h1 : (fun a : SeenRecord =>
      decide ((a.hash != r.hash) = true ∧ (a.hash == h) = true)) =
      (fun a : SeenRecord => a.hash == h) := by
    funext a
    by_cases ha : a.hash = h
    · simp [ha, hne]
    · simp [ha]
  rw [h1]
  have h2 : List.find? (fun y => y.hash == h) [r] = none := by
    have h3 : (r.hash == h) = false := by
      simp only [beq_eq_false_iff_ne, ne_eq]
      exact fun hc => hne hc.symm
    simp [List.find?, h3]
  cases hf : List.find? (fun a : SeenRecord => a.hash == h) db <;>
    simp [Option.or, h2, hf]

/-- Once some record with posted_at = now sits at a key, folding any
further stores of the same run keeps a record with posted_at = now at
that key. -/
theorem lookup_foldl_store_posted (conf : Config) (now : Nat)
    (items : List Item) :
    ∀ (db : Store) (h : String) (r0 : SeenRecord),
    lookupHash db h = some r0 → r0.posted_at = now →
    ∃ r, lookupHash
        (items.foldl (fun d i => store_item conf d now i) db) h = some r ∧
      r.posted_at = now := by
  induction items with
  | nil => exact fun db h r0 e hp => ⟨r0, e, hp⟩
  | cons i rest ih =>
    intro db h r0 e hp
    simp only [List.foldl_cons]
    by_cases hh : h = (storedRecord conf now i).hash
    · refine ih (store_item conf db now i) h (storedRecord conf now i) ?_ rfl
      rw [store_item_eq, hh, lookupHash_insertOrReplace_self]
    · refine ih (store_item conf db now i) h r0 ?_ hp
      rw [store_item_eq, lookupHash_insertOrReplace_ne _ _ _ hh]
      exact e

/-- Every item stored by the fold of a run ends with some record at its
hash whose posted_at is the run time. -/
theorem lookup_foldl_store_mem (conf : Config) (now : Nat)
    (items : List Item) :
    ∀ (db : Store) (i : Item), i ∈ items →
    ∃ r, lookupHash
        (items.foldl (fun d i => store_item conf d now i) db)
        i.calculate_hash = some r ∧ r.posted_at = now := by
  induction items with
  | nil => intro db i h; cases h
  | cons j rest ih =>
    intro db i h
    simp only [List.foldl_cons]
    rcases List.mem_cons.mp h with rfl | hmem
    · refine lookup_foldl_store_posted conf now rest
        (store_item conf db now i) i.calculate_hash
        (storedRecord conf now i) ?_ rfl
      rw [store_item_eq]
      exact lookupHash_insertOrReplace_self db (storedRecord conf now i)
    · exact ih (store_item conf db now j) i hmem

/-- The outcome accumulation distributes over list append: each source
contributes its own items and errors, independent of the others. -/
theorem collect_new_append (conf : Config) (sim : String → String → Nat)
    (db : Store) (now : Nat) (fmt : String → String → String)
    (xs ys : List SourceOutcome) :
    collect_new conf sim db now fmt (xs ++ ys) =
      ((collect_new conf sim db now fmt xs).1 ++
        (collect_new conf sim db now fmt ys).1,
       (collect_new conf sim db now fmt xs).2 ++
        (collect_new conf sim db now fmt ys).2) := by
  induction xs with
  | nil => simp [collect_new]
  | cons o rest ih =>
    cases h : o.result with
    | error e => simp [collect_new, h, ih]
    | ok items => simp [collect_new, h, ih]

/-! ### Claims -/

/-- Claim C1, counterexample.  The claim says the exact-dedup signature
is a pure function of the normalized title, so that two items with
equal normalized titles but different urls collapse to one signature.
In the code the signature is md5 of title concatenated with url:
itemWidgetA and itemWidgetB have literally equal titles and different
urls yet different signatures, and the two spec titles that normalize
to the same string (itemWidgetA and itemWidgetC, same url) also get
different signatures. -/
theorem c1_counterexample :
    itemWidgetA.title = itemWidgetB.title ∧
    itemWidgetA.url ≠ itemWidgetB.url ∧
    Item.calculate_hash itemWidgetA ≠ Item.calculate_hash itemWidgetB ∧
    Item.calculate_hash itemWidgetA ≠ Item.calculate_hash itemWidgetC :=
  ⟨rfl, by decide, by decide, by decide⟩

/-- Claim C1, amended.  The signature computed at item construction is
a pure function of the raw title and the raw url together, with no
case-folding, stripping or length cap: two items agreeing on both
fields share a signature regardless of body, source, tags or fetch
time. -/
theorem c1_theorem (i j : Item) (ht : i.title = j.title)
    (hu : i.url = j.url) :
    Item.calculate_hash i = Item.calculate_hash j := by
  unfold Item.calculate_hash
  rw [ht, hu]

/-- Claim C1, witness: two items with equal title and url but different
bodies and sources have the same signature. -/
theorem c1_witness :
    itemWidgetA.title = itemWidgetD.title ∧
    itemWidgetA.url = itemWidgetD.url ∧
    itemWidgetA.body ≠ itemWidgetD.body ∧
    Item.calculate_hash itemWidgetA = Item.calculate_hash itemWidgetD :=
  ⟨rfl, rfl, by decide, c1_theorem itemWidgetA itemWidgetD rfl rfl⟩

/-- Claim C2, evaluation at the failing input.  After the first RSS
item (Big Sale on Widgets Today) is committed, the near-duplicate
candidate (Big Sale on Widgets Now) is presented while the committed
record is fresh; even with a similarity function that reports 100 for
every pair of titles (well above any threshold), is_item_seen returns
false and the candidate is admitted.  The similarity scan of the code
is unreachable as a rejection cause: a new title has a new hash, the
exact lookup misses, and the function returns before any title scan. -/
theorem c2_theorem :
    90 ≤ simConst100 bigNow.title bigToday.title ∧
    is_item_seen defaultConf simConst100
      (store_item defaultConf [] 900 bigToday) 1000 bigNow = false ∧
    List.filter (fun i => !(is_item_seen defaultConf simConst100
      (store_item defaultConf [] 900 bigToday) 1000 i)) [bigNow] = [bigNow] :=
  ⟨by decide, by decide, by decide⟩

/-- Claim C3, counterexample.  The claim says an admitted item is
committed before the next item is examined, so that of two
near-duplicate items exactly the first is admitted.  In the code the
whole filtering pass runs against the database as of run start and the
commits happen afterwards: both near-duplicate items are admitted, in
either processing order, even with a similarity function that reports
100 for every pair. -/
theorem c3_counterexample :
    (runMain defaultConf simConst100 [] 1000 false
      [⟨"s1", Except.ok [bigToday]⟩, ⟨"s2", Except.ok [bigNow]⟩]
      [] []).metrics.rss_updates =
      [("Big Sale on Widgets Today", "s1"), ("Big Sale on Widgets Now", "s2")] ∧
    (runMain defaultConf simConst100 [] 1000 false
      [⟨"sA", Except.ok [bigNow]⟩, ⟨"sB", Except.ok [bigToday]⟩]
      [] []).metrics.rss_updates =
      [("Big Sale on Widgets Now", "s2"), ("Big Sale on Widgets Today", "s1")] :=
  ⟨rfl, rfl⟩

/-- Claim C3, amended.  Commits are applied only after the whole
filtering pass, so the duplicate set consulted for a later item is the
store as of run start and never includes items admitted earlier in the
same run: of two items not seen in the initial store, both are
admitted, and reversing the processing order only reverses the output
order without changing which items are admitted. -/
theorem c3_theorem (conf : Config) (sim : String → String → Nat)
    (db : Store) (now : Nat) (dr : Bool) (n1 n2 : String) (i1 i2 : Item)
    (h1 : is_item_seen conf sim db now i1 = false)
    (h2 : is_item_seen conf sim db now i2 = false) :
    (runMain conf sim db now dr
      [⟨n1, Except.ok [i1]⟩, ⟨n2, Except.ok [i2]⟩] [] []).metrics.rss_updates
      = [(i1.title, i1.source), (i2.title, i2.source)] ∧
    (runMain conf sim db now dr
      [⟨n1, Except.ok [i2]⟩, ⟨n2, Except.ok [i1]⟩] [] []).metrics.rss_updates
      = [(i2.title, i2.source), (i1.title, i1.source)] := by
  constructor <;> simp [runMain, collect_new, h1, h2]

/-- Claim C3, witness at the near-duplicate pair of the spec over the
empty store. -/
theorem c3_witness :
    (runMain defaultConf simConst100 [] 1000 false
      [⟨"s1", Except.ok [bigToday]⟩, ⟨"s2", Except.ok [bigNow]⟩]
      [] []).metrics.rss_updates =
      [(bigToday.title, bigToday.source), (bigNow.title, bigNow.source)] ∧
    (runMain defaultConf simConst100 [] 1000 false
      [⟨"s1", Except.ok [bigNow]⟩, ⟨"s2", Except.ok [bigToday]⟩]
      [] []).metrics.rss_updates =
      [(bigNow.title, bigNow.source), (bigToday.title, bigToday.source)] :=
  c3_theorem defaultConf simConst100 [] 1000 false "s1" "s2" bigToday bigNow
    (by decide) (by decide)

/-- Claim C4, counterexample.  The claim says the same item submitted
twice within its retention window is admitted exactly once even within
a single run.  In the code both submissions of one run are filtered
against the unmodified database and both are admitted. -/
theorem c4_counterexample :
    (runMain defaultConf simConst100 [] 500 false
      [⟨"d1", Except.ok [dupDeal, dupDeal]⟩] [] []).metrics.rss_updates =
      [("Mega Deal", "d1"), ("Mega Deal", "d1")] :=
  rfl

/-- Claim C4, amended.  Across consecutive runs the admission is
idempotent within the retention window: a run admits a not-yet-seen
item and commits it, and a later run within the stored expiry rejects
the same item through the exact-match lookup and admits nothing.
Within one single run, both submissions are admitted (see the
counterexample). -/
theorem c4_theorem (conf : Config) (sim : String → String → Nat)
    (db : Store) (now1 now2 : Nat) (item : Item) (n1 n2 : String)
    (dr1 dr2 : Bool)
    (hnew : is_item_seen conf sim db now1 item = false)
    (hwin : now2 ≤ (storedRecord conf now1 item).expires_at) :
    (runMain conf sim db now1 dr1
      [⟨n1, Except.ok [item]⟩] [] []).metrics.rss_updates
      = [(item.title, item.source)] ∧
    (runMain conf sim db now1 dr1
      [⟨n1, Except.ok [item]⟩] [] []).finalStore
      = store_item conf db now1 item ∧
    is_item_seen conf sim (store_item conf db now1 item) now2 item = true ∧
    (runMain conf sim (store_item conf db now1 item) now2 dr2
      [⟨n2, Except.ok [item]⟩] [] []).metrics.rss_updates = [] := by
  have hseen : is_item_seen conf sim (store_item conf db now1 item) now2 item
      = true := by
    rw [is_item_seen_spec]
    have hkey : (storedRecord conf now1 item).hash = item.calculate_hash := rfl
    rw [store_item_eq, ← hkey,
      lookupHash_insertOrReplace_self db (storedRecord conf now1 item)]
    simp only [Bool.not_eq_true']
    exact decide_eq_false (Nat.not_lt.mpr hwin)
  refine ⟨?_, ?_, hseen, ?_⟩
  · simp [runMain, collect_new, hnew]
  · simp [runMain, collect_new, hnew]
  · simp [runMain, collect_new, hseen]

/-- Claim C4, witness: dupDeal over the empty store at time 500,
resubmitted at time 600 (inside the default 24-hour RSS window). -/
theorem c4_witness :
    (runMain defaultConf simConst100 [] 500 false
      [⟨"d1", Except.ok [dupDeal]⟩] [] []).metrics.rss_updates
      = [(dupDeal.title, dupDeal.source)] ∧
    (runMain defaultConf simConst100 [] 500 false
      [⟨"d1", Except.ok [dupDeal]⟩] [] []).finalStore
      = store_item defaultConf [] 500 dupDeal ∧
    is_item_seen defaultConf simConst100
      (store_item defaultConf [] 500 dupDeal) 600 dupDeal = true ∧
    (runMain defaultConf simConst100
      (store_item defaultConf [] 500 dupDeal) 600 false
      [⟨"d2", Except.ok [dupDeal]⟩] [] []).metrics.rss_updates = [] :=
  c4_theorem defaultConf simConst100 [] 500 600 dupDeal "d1" "d2" false false
    (by decide) (by decide)

/-- Claim C5, confirmed against the spec-modelled scoring (no scoring
code exists under src).  The score of an item that passed the
freshness checks is max of the first percentage token over 100 and the
resolved floor: Save 45 percent with no configured floor scores 0.45,
text without a percentage token and floor 0.3 scores 0.3, only the
first token counts, the unconfigured floor resolves to 0.3, the score
never falls below the floor, and consequently the rejection branch for
score below floor never fires. -/
theorem c5_theorem :
    admission_score "Save 45% today" "" (min_hot_floor none none)
      = 45 / 100 ∧
    explicit_percentage_in_text ("Save 45% today" ++ "") = 45 / 100 ∧
    admission_score "no percentage token here" "" (3 / 10 : Rat) = 3 / 10 ∧
    explicit_percentage_in_text ("no percentage token here" ++ "") = 0 ∧
    explicit_percentage_in_text "Save 45% now and 60% later" = 45 / 100 ∧
    min_hot_floor none none = 3 / 10 ∧
    (∀ title body floor, floor ≤ admission_score title body floor) ∧
    (∀ title body floor, floor_rejects title body floor = false) := by
  have h1 : scanPercent ("Save 45% today" ++ "").toList none = some 45 := by
    decide
  have h2 : scanPercent ("no percentage token here" ++ "").toList none
      = none := by decide
  have h3 : scanPercent ("Save 45% now and 60% later").toList none
      = some 45 := by decide
  refine ⟨?_, ?_, ?_, ?_, ?_, rfl, ?_, ?_⟩
  · simp only [admission_score, explicit_percentage_in_text, h1,
      min_hot_floor, Option.getD_none]
    rw [max_eq_left (by norm_num)]
    norm_num
  · simp only [explicit_percentage_in_text, h1]
    norm_num
  · simp only [admission_score, explicit_percentage_in_text, h2]
    rw [max_eq_right (by norm_num)]
  · simp only [explicit_percentage_in_text, h2]
  · simp only [explicit_percentage_in_text, h3]
    norm_num
  · intro title body floor
    exact le_max_right _ _
  · intro title body floor
    simp only [floor_rejects, decide_eq_false_iff_not, not_lt,
      admission_score]
    exact le_max_right _ _

/-- Claim C6, counterexample.  The claim says non-transient errors
(4xx other than rate limit) fail immediately without any retry.  The
decorator carries no retry predicate, so tenacity retries every
exception: a fetch whose every attempt returns HTTP 404 is attempted 3
times, with backoff sleeps of 2 and 4 between the attempts, before the
error escalates. -/
theorem c6_counterexample :
    fetch_html resp404
      = (Except.error (FetchErr.httpStatus 404), 3, [2, 4]) :=
  rfl

/-- Claim C6, amended.  The retry wrapper makes at most 3 attempts,
sleeps once between consecutive attempts with an exponential backoff
clamped between 2 and 30 time-units, and retries every failure of the
decorated body, transient or not: any error on the first attempt leads
to a second attempt. -/
theorem c6_theorem (responses : Nat → Except FetchErr HttpResponse) :
    (fetch_html responses).2.1 ≤ 3 ∧
    (∀ w ∈ (fetch_html responses).2.2, 2 ≤ w ∧ w ≤ 30) ∧
    (fetch_html responses).2.2.length = (fetch_html responses).2.1 - 1 ∧
    (∀ e, fetch_once responses 1 = Except.error e →
      2 ≤ (fetch_html responses).2.1) := by
  cases h1 : fetch_once responses 1 with
  | ok v1 => simp [fetch_html, retryLoop, h1]
  | error e1 =>
    cases h2 : fetch_once responses 2 with
    | ok v2 => simp [fetch_html, retryLoop, h1, h2, wait_exponential]
    | error e2 =>
      cases h3 : fetch_once responses 3 with
      | ok v3 => simp [fetch_html, retryLoop, h1, h2, h3, wait_exponential]
      | error e3 => simp [fetch_html, retryLoop, h1, h2, h3, wait_exponential]

/-- Claim C6, witness: the all-404 network fails its first attempt and
is nevertheless retried. -/
theorem c6_witness :
    fetch_once resp404 1 = Except.error (FetchErr.httpStatus 404) ∧
    2 ≤ (fetch_html resp404).2.1 :=
  ⟨rfl, (c6_theorem resp404).2.2.2 (FetchErr.httpStatus 404) rfl⟩

/-- Claim C7, confirmed.  With one HTML source failing among its
siblings, the admitted deal batch consists exactly of the
contributions of the sources before and after it plus the Reddit
contributions, unchanged; the failing source contributes exactly its
formatted error line to the error list; the metrics record, which the
run always produces, contains that line. -/
theorem c7_theorem (conf : Config) (sim : String → String → Nat)
    (db : Store) (now : Nat) (dr : Bool)
    (rssOuts redditOuts pre post : List SourceOutcome) (n e : String) :
    (runMain conf sim db now dr rssOuts
        (pre ++ ⟨n, Except.error e⟩ :: post) redditOuts).metrics.new_deals
      = (((collect_new conf sim db now fmt_html_error pre).1 ++
          (collect_new conf sim db now fmt_html_error post).1) ++
         (collect_new conf sim db now fmt_reddit_error redditOuts).1).map
          (fun i => (i.title, i.source)) ∧
    (runMain conf sim db now dr rssOuts
        (pre ++ ⟨n, Except.error e⟩ :: post) redditOuts).metrics.errors
      = (collect_new conf sim db now fmt_rss_error rssOuts).2 ++
        ((collect_new conf sim db now fmt_html_error pre).2 ++
         (fmt_html_error n e ::
          (collect_new conf sim db now fmt_html_error post).2)) ++
        (collect_new conf sim db now fmt_reddit_error redditOuts).2 ∧
    fmt_html_error n e ∈ (runMain conf sim db now dr rssOuts
        (pre ++ ⟨n, Except.error e⟩ :: post) redditOuts).metrics.errors := by
  have hsplit : collect_new conf sim db now fmt_html_error
      (pre ++ ⟨n, Except.error e⟩ :: post)
      = ((collect_new conf sim db now fmt_html_error pre).1 ++
          (collect_new conf sim db now fmt_html_error post).1,
         (collect_new conf sim db now fmt_html_error pre).2 ++
          (fmt_html_error n e ::
           (collect_new conf sim db now fmt_html_error post).2)) := by
    rw [collect_new_append]
    simp [collect_new]
  refine ⟨?_, ?_, ?_⟩
  · simp [runMain, hsplit]
  · simp [runMain, hsplit]
  · simp [runMain, hsplit]

/-- Claim C8, confirmed.  With a record at the item hash: the item is
treated as seen exactly when now is not strictly beyond the record
expiry (expiry is strict: now greater than expires_at); an expired
record lets the item through the admission filter; and the commit
upserts the same hash key with posted_at = now and expires_at = now
plus the retention window of the feed type. -/
theorem c8_theorem (conf : Config) (sim : String → String → Nat)
    (db : Store) (now : Nat) (item : Item) (r : SeenRecord)
    (hl : lookupHash db item.calculate_hash = some r) :
    is_item_seen conf sim db now item = !decide (r.expires_at < now) ∧
    (r.expires_at < now →
      List.filter (fun i => !(is_item_seen conf sim db now i)) [item]
        = [item]) ∧
    lookupHash (store_item conf db now item) item.calculate_hash
      = some (storedRecord conf now item) ∧
    (storedRecord conf now item).posted_at = now ∧
    (storedRecord conf now item).expires_at
      = now + (if item.type == "rss"
          then 3600 * ((conf.feed_types item.type).max_age_hours.getD 24)
          else 86400 * ((conf.feed_types item.type).max_age_days.getD 30)) := by
  have hspec : is_item_seen conf sim db now item
      = !decide (r.expires_at < now) := by
    rw [is_item_seen_spec, hl]
  refine ⟨hspec, ?_, ?_, rfl, ?_⟩
  · intro hexp
    simp [hspec, hexp]
  · rw [store_item_eq]
    exact lookupHash_insertOrReplace_self db (storedRecord conf now item)
  · cases h : (item.type == "rss") <;> simp [storedRecord, h]

/-- Claim C8, witness: dupDeal committed at time 100 expires at 86500;
at time 90000 the record is expired, the item is treated as unseen and
passes the filter, and a recommit refreshes the record. -/
theorem c8_witness :
    is_item_seen defaultConf simConst100
        (store_item defaultConf [] 100 dupDeal) 90000 dupDeal
      = !decide ((storedRecord defaultConf 100 dupDeal).expires_at < 90000) ∧
    ((storedRecord defaultConf 100 dupDeal).expires_at < 90000 →
      List.filter (fun i => !(is_item_seen defaultConf simConst100
        (store_item defaultConf [] 100 dupDeal) 90000 i)) [dupDeal]
        = [dupDeal]) ∧
    lookupHash (store_item defaultConf
        (store_item defaultConf [] 100 dupDeal) 90000 dupDeal)
        dupDeal.calculate_hash
      = some (storedRecord defaultConf 90000 dupDeal) ∧
    (storedRecord defaultConf 90000 dupDeal).posted_at = 90000 ∧
    (storedRecord defaultConf 90000 dupDeal).expires_at
      = 90000 + (if dupDeal.type == "rss"
          then 3600 * ((defaultConf.feed_types dupDeal.type).max_age_hours.getD 24)
          else 86400 * ((defaultConf.feed_types dupDeal.type).max_age_days.getD 30)) :=
  c8_theorem defaultConf simConst100 (store_item defaultConf [] 100 dupDeal)
    90000 dupDeal (storedRecord defaultConf 100 dupDeal)
    (by rw [store_item_eq]
        exact lookupHash_insertOrReplace_self [] (storedRecord defaultConf 100 dupDeal))

/-- Claim C9, counterexample.  The claim says every successful
extractor call contributes at most 20 items.  The HTML extractor has no
cap: a page whose selector matches 21 blocks contributes 21 items. -/
theorem c9_counterexample :
    (scrape_html entry21 0 blocks21).length = 21 ∧
    ¬ (scrape_html entry21 0 blocks21).length ≤ 20 := by
  have h : (scrape_html entry21 0 blocks21).length = 21 := by
    simp [scrape_html, blocks21]
  exact ⟨h, by omega⟩

/-- Claim C9, amended.  Only the RSS extractor caps its contribution at
the first 20 entries in source order; the HTML extractor emits one item
per matched block with no cap, and the Reddit extractor emits one item
per returned post with no local cap (the request URL asks the API for
20). -/
theorem c9_theorem :
    (∀ (name : String) (tags : List String) (now : Nat) (feed : Feed),
      scrape_rss name tags now feed
        = scrape_rss name tags now
            { bozo := feed.bozo, entries := feed.entries.take 20 }) ∧
    (∀ (name : String) (tags : List String) (now : Nat) (feed : Feed),
      (scrape_rss name tags now feed).length ≤ 20) ∧
    (∀ (entry : SourceEntry) (now : Nat) (blocks : List HtmlBlock),
      (scrape_html entry now blocks).length = blocks.length) ∧
    (∀ (sub : String) (now : Nat) (posts : List RedditPost),
      (scrape_reddit sub now posts).length = posts.length) := by
  refine ⟨?_, ?_, ?_, ?_⟩
  · intro name tags now feed
    simp [scrape_rss, List.take_take]
  · intro name tags now feed
    unfold scrape_rss
    split
    · simp
    · calc ((feed.entries.take 20).filterMap
            (rssEntryItem name tags now)).length
          ≤ (feed.entries.take 20).length :=
            List.length_filterMap_le _ _
        _ ≤ 20 := List.length_take_le _ _
  · intro entry now blocks
    simp [scrape_html]
  · intro sub now posts
    simp [scrape_reddit]

/-- Claim C10, confirmed.  The dry-run flag changes neither the final
store nor the metrics of a run (it only switches delivery from posting
to printing), and every item that passes admission in a dry run is
committed: its hash maps to a record posted at the run time, and for as
long as that record has not expired the exact-match lookup of any
subsequent run reports the item as already seen. -/
theorem c10_theorem (conf : Config) (sim : String → String → Nat)
    (db : Store) (now : Nat)
    (rssOuts htmlOuts redditOuts : List SourceOutcome) :
    (runMain conf sim db now true rssOuts htmlOuts redditOuts).finalStore
      = (runMain conf sim db now false rssOuts htmlOuts redditOuts).finalStore ∧
    (runMain conf sim db now true rssOuts htmlOuts redditOuts).metrics
      = (runMain conf sim db now false rssOuts htmlOuts redditOuts).metrics ∧
    (∀ i, i ∈ (collect_new conf sim db now fmt_rss_error rssOuts).1 ++
        ((collect_new conf sim db now fmt_html_error htmlOuts).1 ++
         (collect_new conf sim db now fmt_reddit_error redditOuts).1) →
      ∃ r, lookupHash
          ((runMain conf sim db now true rssOuts htmlOuts redditOuts).finalStore)
          i.calculate_hash = some r ∧ r.posted_at = now ∧
        (∀ now2, ¬ r.expires_at < now2 →
          is_item_seen conf sim
            ((runMain conf sim db now true rssOuts htmlOuts redditOuts).finalStore)
            now2 i = true)) := by
  refine ⟨rfl, rfl, ?_⟩
  intro i hmem
  obtain ⟨r, hr, hp⟩ := lookup_foldl_store_mem conf now
    ((collect_new conf sim db now fmt_rss_error rssOuts).1 ++
      ((collect_new conf sim db now fmt_html_error htmlOuts).1 ++
       (collect_new conf sim db now fmt_reddit_error redditOuts).1)) db i hmem
  refine ⟨r, hr, hp, ?_⟩
  intro now2 hfresh
  rw [is_item_seen_spec]
  rw [show ((runMain conf sim db now true rssOuts htmlOuts redditOuts).finalStore)
    = ((collect_new conf sim db now fmt_rss_error rssOuts).1 ++
        ((collect_new conf sim db now fmt_html_error htmlOuts).1 ++
         (collect_new conf sim db now fmt_reddit_error redditOuts).1)).foldl
        (fun d i => store_item conf d now i) db from rfl] at *
  rw [hr]
  simp [hfresh]

/-- Claim C10, witness: an RSS item admitted by a dry run over the
empty store is committed, and the committed record reports it as seen
at the same instant. -/
theorem c10_witness :
    (runMain defaultConf simConst100 [] 1000 true
        [⟨"w1", Except.ok [itemDry]⟩] [] []).finalStore
      = (runMain defaultConf simConst100 [] 1000 false
        [⟨"w1", Except.ok [itemDry]⟩] [] []).finalStore ∧
    ∃ r, lookupHash
        ((runMain defaultConf simConst100 [] 1000 true
          [⟨"w1", Except.ok [itemDry]⟩] [] []).finalStore)
        itemDry.calculate_hash = some r ∧ r.posted_at = 1000 ∧
      (∀ now2, ¬ r.expires_at < now2 →
        is_item_seen defaultConf simConst100
          ((runMain defaultConf simConst100 [] 1000 true
            [⟨"w1", Except.ok [itemDry]⟩] [] []).finalStore)
          now2 itemDry = true) := by
  have h := c10_theorem defaultConf simConst100 [] 1000
    [⟨"w1", Except.ok [itemDry]⟩] [] []
  exact ⟨h.1, h.2.2 itemDry (by decide)⟩

end Scraper
